import Mathlib

/-!
Verification of the AI-tutor chat backend (`backend/tutor_chat/chat_service.py`,
`backend/tutor_chat/chat_router.py`, `backend/main.py`).

The per-turn orchestrator `CodeAssistChatService.get_chat_response` is an async
generator.  We embed it as a pure function from the request data and the two
LLM-gateway outcomes (the streamed completion and the structured follow-up
completion) to the list of protocol events it yields together with the list of
gateway calls it makes.
-/

/-- Message roles, as used by the prompt messages (`("system", …)`, `("human", …)`)
and by the spec's conversation-memory `Message` records. -/
inductive Role where
  | system
  | human
  | ai
deriving DecidableEq, Repr

/-- The wire protocol event (`StreamedChatResponse` pydantic model,
chat_service.py lines 21-24).  Field defaults as in the source. -/
structure StreamedChatResponse where
  text_chunk : Option String := none
  follow_up_prompts : Option (List String) := none
  is_final : Bool := false
deriving DecidableEq, Repr

/-- The schema of the structured follow-up completion (`LLMStructuredOutput`,
chat_service.py lines 26-39). -/
structure LLMStructuredOutput where
  main_response : String
  follow_up_questions : Option (List String) := none
deriving DecidableEq, Repr

/-- The `context` dict as read by the service: `context.get('userId')` /
`context.get('tutorName')` return `None` when the key is absent
(chat_service.py lines 91-92). -/
structure PyContext where
  userId : Option String
  tutorName : Option String
deriving DecidableEq, Repr

/-- Python truthiness of an optional string: `None` and `""` are falsy
(`if not user_id`, chat_service.py lines 97, 99). -/
def pyTruthy : Option String → Bool
  | none => false
  | some s => !s.isEmpty

/-- Python's substring operator `sub in s`, on the character sequences. -/
def containsStr (s sub : String) : Bool :=
  decide (sub.data <:+: s.data)

/-- Outcome of the streamed main completion (`chain.astream`, line 129):
either it yields a list of fragments and completes, or it yields a prefix of
fragments and then raises. -/
inductive StreamOutcome where
  | ok (chunks : List String)
  | fail (chunksBefore : List String)
deriving DecidableEq, Repr

/-- Whether the streamed completion ran to completion. -/
def StreamOutcome.isOk : StreamOutcome → Bool
  | .ok _ => true
  | .fail _ => false

/-- Outcome of the structured follow-up completion (`structured_chain.ainvoke`,
line 202): a validated `LLMStructuredOutput`, or any failure
(`ValidationError` or other exception, lines 220-227). -/
inductive StructuredOutcome where
  | ok (out : LLMStructuredOutput)
  | fail
deriving DecidableEq, Repr

/-- A call made to the LLM gateway during a turn: the streamed completion
receives the assembled prompt messages; the structured completion receives the
`structured_input` dict values (`user_original_query`, `ai_main_response`,
lines 195-198; the static follow-up template, parameterized by the tutor name,
is not varied by the turn data and is elided). -/
inductive GatewayCall where
  | streamCall (prompt : List (Role × String))
  | structuredCall (user_original_query : String) (ai_main_response : String)
deriving DecidableEq, Repr

/-- The system prompt f-string (chat_service.py lines 104-112), with
`tutor_name` substituted. -/
def system_prompt (tutor_name : String) : String :=
  "You are a helpful and engaging mentor named " ++ tutor_name ++
  " who helps students learn.\n            Remember to:\n            1. Suggest improvements\n            2. Be encouraging and supportive\n            3. Focus on teaching and understanding\n\n            IMPORTANT:\n            - If question is not related to learning domain, politely decline in a humorous tone.\n            - Always refer to yourself as " ++
  tutor_name ++ " and NOT as an AI assistant."

/-- Python's `str.lower()`, as per-character lowercasing of the character
sequence. -/
def pyLower (s : String) : String :=
  String.mk (s.data.map Char.toLower)

/-- The case-insensitive phrase test of the augmentation rule
(chat_service.py line 116): `message.lower()` is tested for the three
phrases. -/
def phraseHit (message : String) : Bool :=
  containsStr (pyLower message) "my email" ||
  containsStr (pyLower message) "what's my email" ||
  containsStr (pyLower message) "my user id"

/-- `human_message_content` (chat_service.py lines 114-117): the message,
augmented with the registered id when `user_id` contains `@` and the phrase
test fires. -/
def human_message_content (message user_id : String) : String :=
  if containsStr user_id "@" && phraseHit message then
    message ++ ("\n\n(Note: The user's registered email/ID is: " ++ (user_id ++ ")"))
  else message

/-- The streaming loop (chat_service.py lines 128-138): for each fragment with
truthy (non-empty) content, append it to the accumulator and yield a non-final
event carrying it; empty fragments are skipped.  Returns the yielded events and
the final accumulated text. -/
def streamPhase : List String → String → List StreamedChatResponse × String
  | [], acc => ([], acc)
  | c :: cs, acc =>
    if c.isEmpty then streamPhase cs acc
    else
      let r := streamPhase cs (acc ++ c)
      (⟨some c, none, false⟩ :: r.1, r.2)

/-- `accumulated_text` at the end of the streaming loop. -/
def accumulated_text (chunks : List String) : String :=
  (streamPhase chunks "").2

/-- The follow-up post-processing (chat_service.py lines 204-214): a truthy
list with a blank entry is discarded (`follow_ups = None`); a truthy list with
an over-7-word entry is only logged and kept; finally
`follow_ups if follow_ups else None` maps the empty list (and `None`) to
`None`.  (The `isinstance(q, str)` conjunct is vacuous in this typed embedding:
the validated schema makes every entry a string.) -/
def normalize_follow_ups (fuq : Option (List String)) : Option (List String) :=
  let follow_ups :=
    match fuq with
    | some l =>
      if !l.isEmpty && !(l.all (fun q => !q.trim.isEmpty)) then none
      else if !l.isEmpty && l.any (fun q => (List.filter (fun w : String => !w.isEmpty) (q.split Char.isWhitespace)).length > 7) then some l
      else some l
    | none => none
  match follow_ups with
  | some l => if l.isEmpty then none else some l
  | none => none

/-- Error text of the `ValueError` handler (chat_service.py lines 229-235). -/
def configErrText (ve : String) : String :=
  "I apologize, but there's a configuration issue: " ++ ve

/-- Error text of the generic handler (chat_service.py lines 236-242). -/
def genericErrText : String :=
  "I apologize, but I encountered an error. Please try again later."

/-- The per-turn orchestrator `CodeAssistChatService.get_chat_response`
(chat_service.py lines 90-242), embedded as a pure function of the request and
the two gateway outcomes.  Returns the yielded events (in order) and the
gateway calls made (in order).

* Missing/empty `userId` or `tutorName` raise `ValueError` before any model
  call; the outer `except ValueError` yields a single terminal event carrying
  the error text (lines 96-100, 229-235).
* Otherwise the prompt is assembled from the system prompt and the (possibly
  augmented) human message (lines 120-123) and the streamed completion is
  driven (lines 128-138).  A mid-stream failure propagates to the outer
  `except Exception`, which yields a single terminal event with the generic
  apology (lines 236-242).
* After a complete stream the structured completion is invoked; on success the
  terminal event carries the post-processed follow-ups (lines 194-217); on any
  failure the inner handlers yield a terminal event with no follow-ups
  (lines 220-227). -/
def get_chat_response (message : String) (ctx : PyContext)
    (stream : StreamOutcome) (structured : StructuredOutcome) :
    List StreamedChatResponse × List GatewayCall :=
  if !pyTruthy ctx.userId then
    ([⟨some (configErrText "User ID must be provided in context."), none, true⟩], [])
  else if !pyTruthy ctx.tutorName then
    ([⟨some (configErrText "Tutor name must be provided in context."), none, true⟩], [])
  else
    let user_id := ctx.userId.getD ""
    let tutor_name := ctx.tutorName.getD ""
    let prompt := [(Role.system, system_prompt tutor_name),
                   (Role.human, human_message_content message user_id)]
    match stream with
    | .fail pre =>
      let r := streamPhase pre ""
      (r.1 ++ [⟨some genericErrText, none, true⟩], [.streamCall prompt])
    | .ok chunks =>
      let r := streamPhase chunks ""
      let calls := [GatewayCall.streamCall prompt, .structuredCall message r.2]
      match structured with
      | .ok out =>
        (r.1 ++ [⟨none, normalize_follow_ups out.follow_up_questions, true⟩], calls)
      | .fail =>
        (r.1 ++ [⟨none, none, true⟩], calls)

set_option linter.unusedVariables false in
/-- The entry point as named by the spec (§4.1).  The request carries a
`conversationId` (chat_router.py lines 34, 59), but the service generator has
no such parameter (chat_service.py line 90), so the events and gateway calls of
a turn cannot depend on it. -/
def streamTurn (conversationId : String) (message : String) (ctx : PyContext)
    (stream : StreamOutcome) (structured : StructuredOutcome) :
    List StreamedChatResponse × List GatewayCall :=
  get_chat_response message ctx stream structured

/-- A conversation-memory message (spec §3 `Message`). -/
structure Message where
  role : Role
  content : String
deriving DecidableEq, Repr

/-- Modelled from the spec: the Conversation Memory Store (§4.2, §3
`ConversationMemory`) appears nowhere in the given sources — the service keeps
no history.  A process-wide map from conversation id to an ordered message
history, keyed by exact string match. -/
def MemoryStore : Type := List (String × List Message)

/-- Modelled from the spec: `read(conversationId)` (§4.2) — the stored history,
or an absent-marker. -/
def readMem : MemoryStore → String → Option (List Message)
  | [], _ => none
  | (k, hist) :: rest, cid => if k = cid then some hist else readMem rest cid

/-- Modelled from the spec: `append(conversationId, human, ai)` (§4.2) —
append a human/ai pair to the conversation's history, creating the empty
history on first reference (§4.2 `getOrCreate`). -/
def appendTurn : MemoryStore → String → String → String → MemoryStore
  | [], cid, h, a => [(cid, [⟨.human, h⟩, ⟨.ai, a⟩])]
  | (k, hist) :: rest, cid, h, a =>
    if k = cid then (k, hist ++ [⟨.human, h⟩, ⟨.ai, a⟩]) :: rest
    else (k, hist) :: appendTurn rest cid h a

/-- Modelled from the spec: `clear(conversationId)` (§4.2) — remove the
conversation's history; a no-op if the id is absent, not an error. -/
def clear : MemoryStore → String → MemoryStore
  | [], _ => []
  | (k, hist) :: rest, cid =>
    if k = cid then clear rest cid else (k, hist) :: clear rest cid

/-- Modelled from the spec: the memory steps of the orchestrator (§4.1 steps
3 and 8-9), which are absent from the source service.  Runs the source turn
and, per the spec, commits the human message (original, non-augmented text)
and then the ai message (the accumulated buffer), in that order, only for a
turn that produced its terminal event on the success path (validation passed
and the streamed completion completed); a failed turn commits nothing. -/
def streamTurnWithMemory (st : MemoryStore) (conversationId message : String)
    (ctx : PyContext) (stream : StreamOutcome) (structured : StructuredOutcome) :
    (List StreamedChatResponse × List GatewayCall) × MemoryStore :=
  let r := get_chat_response message ctx stream structured
  match stream with
  | .ok chunks =>
    if pyTruthy ctx.userId && pyTruthy ctx.tutorName then
      (r, appendTurn st conversationId message (accumulated_text chunks))
    else (r, st)
  | .fail _ => (r, st)

/-- The prompts submitted to the streamed completion among a turn's gateway
calls. -/
def sentPrompts (calls : List GatewayCall) : List (List (Role × String)) :=
  calls.filterMap (fun c =>
    match c with
    | .streamCall p => some p
    | .structuredCall _ _ => none)

/-- The claim's shape for the terminal event's follow-ups: null, or a
non-empty list of non-blank entries. -/
def isNullOrValidList : Option (List String) → Bool
  | none => true
  | some l => !l.isEmpty && l.all (fun q => !q.trim.isEmpty)

/-- The keyword parameters accepted by `CodeAssistChatService.get_chat_response`
(chat_service.py line 90: `(self, message, context)`). -/
def get_chat_response_params : List String := ["message", "context"]

/-- The keyword arguments the router passes to the service
(chat_router.py lines 57-62). -/
def router_call_kwargs : List String := ["message", "conversationId", "context"]

/-- Python keyword-argument binding: a call raises `TypeError` unless every
keyword names a parameter and every (required, keyword-bindable) parameter is
supplied. -/
def pyKwargsBind (params kwargs : List String) : Bool :=
  kwargs.all (fun k => params.contains k) && params.all (fun p => kwargs.contains p)

/-! ### Helper lemmas -/

theorem streamPhase_front (cs : List String) (a : String) :
    ((streamPhase cs a).1).all
      (fun e => !e.is_final && (e.text_chunk.isSome && e.follow_up_prompts.isNone)) = true := by
  induction cs generalizing a with
  | nil => rfl
  | cons c cs ih =>
    by_cases hc : c.isEmpty
    · simpa [streamPhase, hc] using ih a
    · simpa [streamPhase, hc] using ih (a ++ c)

theorem streamPhase_nonempty (cs : List String) :
    ∀ a, cs.all (fun c => !c.isEmpty) = true →
      streamPhase cs a =
        (cs.map (fun c => (⟨some c, none, false⟩ : StreamedChatResponse)),
         cs.foldl (· ++ ·) a) := by
  induction cs with
  | nil => intro a _; rfl
  | cons c cs ih =>
    intro a h
    simp only [List.all_cons, Bool.and_eq_true] at h
    have hc : c.isEmpty = false := by simpa using h.1
    simp [streamPhase, hc, ih (a ++ c) h.2]

theorem get_chat_response_events_shape (message : String) (ctx : PyContext)
    (stream : StreamOutcome) (structured : StructuredOutcome) :
    ∃ front fin,
      (get_chat_response message ctx stream structured).1 = front ++ [fin] ∧
      fin.is_final = true ∧
      front.all
        (fun e => !e.is_final && (e.text_chunk.isSome && e.follow_up_prompts.isNone)) = true ∧
      fin.text_chunk.isNone =
        (pyTruthy ctx.userId && pyTruthy ctx.tutorName && stream.isOk) ∧
      (fin.text_chunk = none ∨ fin.follow_up_prompts = none) := by
  by_cases hu : pyTruthy ctx.userId
  · by_cases ht : pyTruthy ctx.tutorName
    · cases stream with
      | fail pre =>
        refine ⟨(streamPhase pre "").1, ⟨some genericErrText, none, true⟩, ?_, rfl,
          streamPhase_front pre "", ?_, Or.inr rfl⟩
        · simp [get_chat_response, hu, ht]
        · simp [hu, ht, StreamOutcome.isOk]
      | ok chunks =>
        cases structured with
        | ok out =>
          refine ⟨(streamPhase chunks "").1,
            ⟨none, normalize_follow_ups out.follow_up_questions, true⟩, ?_, rfl,
            streamPhase_front chunks "", ?_, Or.inl rfl⟩
          · simp [get_chat_response, hu, ht]
          · simp [hu, ht, StreamOutcome.isOk]
        | fail =>
          refine ⟨(streamPhase chunks "").1, ⟨none, none, true⟩, ?_, rfl,
            streamPhase_front chunks "", ?_, Or.inl rfl⟩
          · simp [get_chat_response, hu, ht]
          · simp [hu, ht, StreamOutcome.isOk]
    · have hu' : pyTruthy ctx.userId = true := hu
      have ht' : pyTruthy ctx.tutorName = false := by simpa using ht
      refine ⟨[], ⟨some (configErrText "Tutor name must be provided in context."), none, true⟩,
        ?_, rfl, rfl, ?_, Or.inr rfl⟩
      · simp [get_chat_response, hu', ht']
      · simp [hu', ht']
  · have hu' : pyTruthy ctx.userId = false := by simpa using hu
    refine ⟨[], ⟨some (configErrText "User ID must be provided in context."), none, true⟩,
      ?_, rfl, rfl, ?_, Or.inr rfl⟩
    · simp [get_chat_response, hu']
    · simp [hu']

theorem read_appendTurn (st : MemoryStore) (cid h a : String) :
    readMem (appendTurn st cid h a) cid =
      some ((readMem st cid).getD [] ++ [⟨.human, h⟩, ⟨.ai, a⟩]) := by
  induction st with
  | nil => simp [readMem, appendTurn]
  | cons p rest ih =>
    obtain ⟨k, hist⟩ := p
    by_cases hk : k = cid
    · simp [readMem, appendTurn, hk]
    · simp [readMem, appendTurn, hk, ih]

theorem clear_absent (st : MemoryStore) (cid : String) (h : readMem st cid = none) :
    clear st cid = st := by
  induction st with
  | nil => rfl
  | cons p rest ih =>
    obtain ⟨k, hist⟩ := p
    by_cases hk : k = cid
    · simp [readMem, hk] at h
    · simp only [readMem, hk, if_neg hk] at h
      simp [clear, hk, ih h]

theorem normalize_follow_ups_some (l : List String) :
    normalize_follow_ups (some l) =
      if (!l.isEmpty && l.all (fun q => !q.trim.isEmpty)) = true then some l else none := by
  by_cases h1 : l.isEmpty
  · simp [normalize_follow_ups, h1]
  · have h1' : l.isEmpty = false := by simpa using h1
    by_cases h2 : l.all (fun q => !q.trim.isEmpty)
    · simp [normalize_follow_ups, h1', h2]
    · have h2' : l.all (fun q => !q.trim.isEmpty) = false := by simpa using h2
      simp [normalize_follow_ups, h1', h2']

theorem isNullOrValidList_normalize (fuq : Option (List String)) :
    isNullOrValidList (normalize_follow_ups fuq) = true := by
  cases fuq with
  | none => rfl
  | some l =>
    rw [normalize_follow_ups_some]
    by_cases h : (!l.isEmpty && l.all (fun q => !q.trim.isEmpty)) = true
    · simp [isNullOrValidList, h]
    · simp [h, isNullOrValidList]

/-! ### Claims -/

/-- C1: For every turn — any context and any outcome of the two gateway calls
(success, mid-stream failure, structured failure) — the event sequence yielded
by the chat generator contains exactly one event with `is_final = true`, that
event is the last one, and the sequence never ends without it. -/
theorem C1_single_terminal_event_always_last (message : String) (ctx : PyContext)
    (stream : StreamOutcome) (structured : StructuredOutcome) :
    ∃ front fin,
      (get_chat_response message ctx stream structured).1 = front ++ [fin] ∧
      fin.is_final = true ∧
      front.all (fun e => !e.is_final) = true ∧
      ((get_chat_response message ctx stream structured).1.filter
        (fun e => e.is_final)).length = 1 := by
  obtain ⟨front, fin, he, hfin, hfront, -, -⟩ :=
    get_chat_response_events_shape message ctx stream structured
  have hf : front.all (fun e => !e.is_final) = true := by
    simp only [List.all_eq_true, Bool.and_eq_true] at hfront ⊢
    intro e he'
    exact (hfront e he').1
  refine ⟨front, fin, he, hfin, hf, ?_⟩
  rw [he, List.filter_append]
  have h0 : front.filter (fun e => e.is_final) = [] := by
    simp only [List.filter_eq_nil_iff]
    intro e he'
    simp only [List.all_eq_true] at hf
    simpa using hf e he'
  simp [h0, hfin]

/-- C2: the router invokes the service entry point with a `conversationId`
keyword argument (chat_router.py line 59), but the service generator's
signature has no such parameter (chat_service.py line 90), so the call cannot
bind — every request raises `TypeError` at dispatch; without the extra keyword
the call binds. -/
theorem C2_router_call_does_not_bind :
    pyKwargsBind get_chat_response_params router_call_kwargs = false ∧
    pyKwargsBind get_chat_response_params ["message", "context"] = true := by
  decide

/-- C3 counterexample: a turn with an empty `conversationId` but a valid
`userId` and `tutorName` is processed normally — the gateway is called (the
call list is non-empty) and the stream is a chunk event followed by the
terminal event, not the single terminal event the claim requires. -/
theorem C3_counterexample_empty_conversationId_not_rejected :
    (streamTurn "" "hi" ⟨some "u", some "T"⟩ (.ok ["Hi"]) (.ok ⟨"", none⟩)).1 =
      [⟨some "Hi", none, false⟩, ⟨none, none, true⟩] ∧
    ((streamTurn "" "hi" ⟨some "u", some "T"⟩ (.ok ["Hi"]) (.ok ⟨"", none⟩)).2).length = 2 := by
  constructor
  · rfl
  · rfl

/-- C3 amended: the service validates only `context.userId` and
`context.tutorName` — `conversationId` is never checked (it is not even a
parameter of the generator).  For every turn where `userId` or `tutorName` is
missing or empty, no gateway call is made and the output is a single terminal
event with `is_final = true`, `follow_up_prompts = null` and a non-empty
descriptive `text_chunk`. -/
theorem C3_missing_user_or_tutor_single_terminal (message : String)
    (ctx : PyContext) (stream : StreamOutcome) (structured : StructuredOutcome)
    (h : (pyTruthy ctx.userId && pyTruthy ctx.tutorName) = false) :
    ∃ t, get_chat_response message ctx stream structured =
        ([⟨some t, none, true⟩], []) ∧ t.isEmpty = false := by
  by_cases hu : pyTruthy ctx.userId
  · have ht : pyTruthy ctx.tutorName = false := by simpa [hu] using h
    exact ⟨configErrText "Tutor name must be provided in context.",
      by simp [get_chat_response, hu, ht], rfl⟩
  · have hu' : pyTruthy ctx.userId = false := by simpa using hu
    exact ⟨configErrText "User ID must be provided in context.",
      by simp [get_chat_response, hu'], rfl⟩

/-- C3 witness: a concrete turn with a missing `userId`. -/
theorem C3_missing_user_or_tutor_single_terminal_witness :
    (pyTruthy (PyContext.mk none (some "T")).userId &&
      pyTruthy (PyContext.mk none (some "T")).tutorName) = false ∧
    ∃ t, get_chat_response "hi" ⟨none, some "T"⟩ (.ok []) .fail =
        ([⟨some t, none, true⟩], []) ∧ t.isEmpty = false :=
  ⟨by decide,
   C3_missing_user_or_tutor_single_terminal "hi" ⟨none, some "T"⟩ (.ok []) .fail (by decide)⟩

/-- C4 counterexample: a first turn on conversation `"c1"` commits its
human/ai pair to the (spec-modelled) store, yet the second turn's prompt to
the streamed completion is exactly the system message followed by the second
human message — the first turn's pair is not in it. -/
theorem C4_counterexample_second_turn_prompt_has_no_history :
    readMem ((streamTurnWithMemory [] "c1" "q1" ⟨some "u", some "T"⟩
        (.ok ["a1"]) (.ok ⟨"", none⟩)).2) "c1" =
      some [⟨.human, "q1"⟩, ⟨.ai, "a1"⟩] ∧
    ((streamTurnWithMemory ((streamTurnWithMemory [] "c1" "q1" ⟨some "u", some "T"⟩
        (.ok ["a1"]) (.ok ⟨"", none⟩)).2) "c1" "q2" ⟨some "u", some "T"⟩
        (.ok ["a2"]) (.ok ⟨"", none⟩)).1.2).head? =
      some (.streamCall [(Role.system, system_prompt "T"), (Role.human, "q2")]) ∧
    [(Role.system, system_prompt "T"), (Role.human, "q2")].all
      (fun m => !(m.2 == "q1") && !(m.2 == "a1")) = true := by
  refine ⟨rfl, rfl, ?_⟩
  decide

/-- C4 amended: for every valid turn the prompt submitted to the streamed
completion is the system message followed by the (possibly augmented) current
human message, and nothing else — the service keeps no conversation history,
so a repeated call with the same `conversationId` gets a prompt without the
earlier turn's pair. -/
theorem C4_prompt_is_system_then_current_human (message : String)
    (ctx : PyContext) (stream : StreamOutcome) (structured : StructuredOutcome)
    (hu : pyTruthy ctx.userId = true) (ht : pyTruthy ctx.tutorName = true) :
    (get_chat_response message ctx stream structured).2.head? =
      some (.streamCall [(Role.system, system_prompt (ctx.tutorName.getD "")),
        (Role.human, human_message_content message (ctx.userId.getD ""))]) := by
  cases stream <;> cases structured <;> simp [get_chat_response, hu, ht]

/-- C4 witness: a concrete valid turn. -/
theorem C4_prompt_is_system_then_current_human_witness :
    pyTruthy (PyContext.mk (some "u") (some "T")).userId = true ∧
    pyTruthy (PyContext.mk (some "u") (some "T")).tutorName = true ∧
    (get_chat_response "hi" ⟨some "u", some "T"⟩ (.ok ["x"]) .fail).2.head? =
      some (.streamCall [(Role.system, system_prompt ((some "T").getD "")),
        (Role.human, human_message_content "hi" ((some "u").getD ""))]) :=
  ⟨by decide, by decide,
   C4_prompt_is_system_then_current_human "hi" ⟨some "u", some "T"⟩ (.ok ["x"]) .fail
     (by decide) (by decide)⟩

/-- C5: after a successful turn the (spec-modelled) store's history for the
conversation ends in the human message equal to the original (unaugmented)
input followed by the ai message equal to the accumulated streamed text; the
commit happens only after the turn's terminal event; and `clear` on an absent
id is a no-op. -/
theorem C5_commit_after_terminal_and_clear_noop (st : MemoryStore)
    (cid message : String) (ctx : PyContext) (chunks : List String)
    (structured : StructuredOutcome) (st2 : MemoryStore) (cid2 : String)
    (hu : pyTruthy ctx.userId = true) (ht : pyTruthy ctx.tutorName = true)
    (habs : readMem st2 cid2 = none) :
    ∃ prev front fin,
      readMem (streamTurnWithMemory st cid message ctx (.ok chunks) structured).2 cid =
        some (prev ++ [⟨.human, message⟩, ⟨.ai, accumulated_text chunks⟩]) ∧
      (streamTurnWithMemory st cid message ctx (.ok chunks) structured).1.1 =
        front ++ [fin] ∧
      fin.is_final = true ∧
      clear st2 cid2 = st2 := by
  obtain ⟨front, fin, he, hfin, -, -, -⟩ :=
    get_chat_response_events_shape message ctx (.ok chunks) structured
  refine ⟨(readMem st cid).getD [], front, fin, ?_, ?_, hfin, clear_absent st2 cid2 habs⟩
  · simp [streamTurnWithMemory, hu, ht, read_appendTurn]
  · simpa [streamTurnWithMemory, hu, ht] using he

/-- C5 witness: a concrete successful turn on a fresh store, and `clear` on a
store without the id. -/
theorem C5_commit_after_terminal_and_clear_noop_witness :
    pyTruthy (PyContext.mk (some "u") (some "T")).userId = true ∧
    pyTruthy (PyContext.mk (some "u") (some "T")).tutorName = true ∧
    readMem [("other", [])] "nonexistent" = none ∧
    ∃ prev front fin,
      readMem (streamTurnWithMemory [] "c1" "hi" ⟨some "u", some "T"⟩
          (.ok ["Hello", " world"]) .fail).2 "c1" =
        some (prev ++ [⟨.human, "hi"⟩, ⟨.ai, accumulated_text ["Hello", " world"]⟩]) ∧
      (streamTurnWithMemory [] "c1" "hi" ⟨some "u", some "T"⟩
          (.ok ["Hello", " world"]) .fail).1.1 = front ++ [fin] ∧
      fin.is_final = true ∧
      clear [("other", [])] "nonexistent" = [("other", [])] :=
  ⟨by decide, by decide, by decide,
   C5_commit_after_terminal_and_clear_noop [] "c1" "hi" ⟨some "u", some "T"⟩
     ["Hello", " world"] .fail [("other", [])] "nonexistent"
     (by decide) (by decide) (by decide)⟩

/-- C6: for every valid turn whose structured follow-up completion fails, the
failure is swallowed and the stream still ends with the terminal event
`{text_chunk = null, follow_up_prompts = null, is_final = true}` after the
unchanged chunk events. -/
theorem C6_followup_failure_still_terminal (message : String) (ctx : PyContext)
    (chunks : List String)
    (hu : pyTruthy ctx.userId = true) (ht : pyTruthy ctx.tutorName = true) :
    (get_chat_response message ctx (.ok chunks) .fail).1 =
      (streamPhase chunks "").1 ++ [⟨none, none, true⟩] := by
  simp [get_chat_response, hu, ht]

/-- C6 witness: a concrete valid turn with a failing structured completion. -/
theorem C6_followup_failure_still_terminal_witness :
    pyTruthy (PyContext.mk (some "u") (some "T")).userId = true ∧
    pyTruthy (PyContext.mk (some "u") (some "T")).tutorName = true ∧
    (get_chat_response "hi" ⟨some "u", some "T"⟩ (.ok ["Hi"]) .fail).1 =
      (streamPhase ["Hi"] "").1 ++ [⟨none, none, true⟩] :=
  ⟨by decide, by decide,
   C6_followup_failure_still_terminal "hi" ⟨some "u", some "T"⟩ ["Hi"]
     (by decide) (by decide)⟩

theorem containsStr_self (s : String) : containsStr s s = true :=
  decide_eq_true (List.infix_refl s.data)

theorem containsStr_of_surround (a b c s : String) :
    containsStr (a ++ (b ++ (s ++ c))) s = true := by
  apply decide_eq_true
  refine ⟨a.data ++ b.data, c.data, ?_⟩
  simp [String.data_append, List.append_assoc]

/-- C7 counterexample: user `"a@b.com"` sends the message `"a@b.com"` — it
matches none of the three phrases, yet the prompt sent to the streamed
completion contains the literal registered id (the user typed it), refuting
the claim's "for every turn where the message contains none of these phrases,
the prompt does not include it". -/
theorem C7_counterexample_prompt_contains_id_without_phrase :
    phraseHit "a@b.com" = false ∧
    ∃ p, (get_chat_response "a@b.com" ⟨some "a@b.com", some "T"⟩ (.ok []) .fail).2 =
        [.streamCall p, .structuredCall "a@b.com" ""] ∧
      p.any (fun m => containsStr m.2 "a@b.com") = true := by
  refine ⟨by decide, [(Role.system, system_prompt "T"), (Role.human, "a@b.com")], rfl, ?_⟩
  have h2 : containsStr "a@b.com" "a@b.com" = true := containsStr_self _
  simp [List.any_cons, h2]

/-- C7 amended: when `userId` contains `@` and the message (case-insensitively)
contains one of the phrases, the prompt sent to the streamed completion
includes the literal `userId`; when the message contains none of the phrases,
the prompt includes the `userId` only if the message itself or the rendered
system prompt already contains it. -/
theorem C7_id_in_prompt_iff_augmentation_or_echo (message user_id tutor_name : String)
    (stream : StreamOutcome) (structured : StructuredOutcome)
    (hu : user_id.isEmpty = false) (ht : tutor_name.isEmpty = false) :
    ((containsStr user_id "@" && phraseHit message) = true →
      (sentPrompts (get_chat_response message ⟨some user_id, some tutor_name⟩
          stream structured).2).any
        (fun p => p.any (fun m => containsStr m.2 user_id)) = true) ∧
    ((phraseHit message || containsStr message user_id ||
        containsStr (system_prompt tutor_name) user_id) = false →
      (sentPrompts (get_chat_response message ⟨some user_id, some tutor_name⟩
          stream structured).2).all
        (fun p => p.all (fun m => !containsStr m.2 user_id)) = true) := by
  have hu' : pyTruthy (some user_id) = true := by simp [pyTruthy, hu]
  have ht' : pyTruthy (some tutor_name) = true := by simp [pyTruthy, ht]
  constructor
  · intro hcond
    have haug : containsStr (message ++
        ("\n\n(Note: The user's registered email/ID is: " ++ (user_id ++ ")"))) user_id = true :=
      containsStr_of_surround _ _ _ _
    cases stream <;> cases structured <;>
      simp [get_chat_response, hu', ht', sentPrompts, human_message_content, hcond, haug]
  · intro hcond
    simp only [Bool.or_eq_false_iff] at hcond
    obtain ⟨⟨hP, hm⟩, hs⟩ := hcond
    cases stream <;> cases structured <;>
      simp [get_chat_response, hu', ht', sentPrompts, human_message_content, hP, hm, hs]

/-- C7 witness: user `"a@b.com"` asking `"what's my email"`. -/
theorem C7_id_in_prompt_iff_augmentation_or_echo_witness :
    ("a@b.com" : String).isEmpty = false ∧ ("T" : String).isEmpty = false ∧
    (((containsStr "a@b.com" "@" && phraseHit "what's my email") = true →
      (sentPrompts (get_chat_response "what's my email" ⟨some "a@b.com", some "T"⟩
          (.ok []) .fail).2).any
        (fun p => p.any (fun m => containsStr m.2 "a@b.com")) = true) ∧
    ((phraseHit "what's my email" || containsStr "what's my email" "a@b.com" ||
        containsStr (system_prompt "T") "a@b.com") = false →
      (sentPrompts (get_chat_response "what's my email" ⟨some "a@b.com", some "T"⟩
          (.ok []) .fail).2).all
        (fun p => p.all (fun m => !containsStr m.2 "a@b.com")) = true)) :=
  ⟨by decide, by decide,
   C7_id_in_prompt_iff_augmentation_or_echo "what's my email" "a@b.com" "T"
     (.ok []) .fail (by decide) (by decide)⟩

/-- C8: for every valid turn whose streamed completion yields only non-empty
fragments, one non-final event is emitted per fragment, carrying exactly that
fragment in order, and the buffer passed to the structured follow-up
completion is the fragments' concatenation. -/
theorem C8_one_event_per_fragment_and_buffer_is_concat (message : String)
    (ctx : PyContext) (chunks : List String) (structured : StructuredOutcome)
    (hu : pyTruthy ctx.userId = true) (ht : pyTruthy ctx.tutorName = true)
    (hne : chunks.all (fun c => !c.isEmpty) = true) :
    ∃ fin, (get_chat_response message ctx (.ok chunks) structured).1 =
        chunks.map (fun c => (⟨some c, none, false⟩ : StreamedChatResponse)) ++ [fin] ∧
      fin.is_final = true ∧
      (get_chat_response message ctx (.ok chunks) structured).2 =
        [.streamCall [(Role.system, system_prompt (ctx.tutorName.getD "")),
            (Role.human, human_message_content message (ctx.userId.getD ""))],
          .structuredCall message (chunks.foldl (· ++ ·) "")] := by
  have hsp := streamPhase_nonempty chunks "" hne
  cases structured with
  | ok out =>
    exact ⟨⟨none, normalize_follow_ups out.follow_up_questions, true⟩,
      by simp [get_chat_response, hu, ht, hsp], rfl,
      by simp [get_chat_response, hu, ht, hsp]⟩
  | fail =>
    exact ⟨⟨none, none, true⟩,
      by simp [get_chat_response, hu, ht, hsp], rfl,
      by simp [get_chat_response, hu, ht, hsp]⟩

/-- C8 witness: fragments `["Hello", " world"]` produce two non-final events
and the buffer `"Hello world"`. -/
theorem C8_one_event_per_fragment_and_buffer_is_concat_witness :
    pyTruthy (PyContext.mk (some "u") (some "T")).userId = true ∧
    pyTruthy (PyContext.mk (some "u") (some "T")).tutorName = true ∧
    ["Hello", " world"].all (fun c => !c.isEmpty) = true ∧
    ["Hello", " world"].foldl (· ++ ·) "" = "Hello world" ∧
    ∃ fin, (get_chat_response "hi" ⟨some "u", some "T"⟩ (.ok ["Hello", " world"]) .fail).1 =
        ["Hello", " world"].map (fun c => (⟨some c, none, false⟩ : StreamedChatResponse)) ++ [fin] ∧
      fin.is_final = true ∧
      (get_chat_response "hi" ⟨some "u", some "T"⟩ (.ok ["Hello", " world"]) .fail).2 =
        [.streamCall [(Role.system, system_prompt ((some "T").getD "")),
            (Role.human, human_message_content "hi" ((some "u").getD ""))],
          .structuredCall "hi" (["Hello", " world"].foldl (· ++ ·) "")] :=
  ⟨by decide, by decide, by decide, by decide,
   C8_one_event_per_fragment_and_buffer_is_concat "hi" ⟨some "u", some "T"⟩
     ["Hello", " world"] .fail (by decide) (by decide) (by decide)⟩

/-- C9 counterexample: on a turn with a missing `userId` the single
`is_final = true` event does carry a `text_chunk` (the error text), refuting
the claim's "never carries a textChunk" for that event. -/
theorem C9_counterexample_error_terminal_carries_text_chunk :
    ∃ fin, (get_chat_response "hi" ⟨none, some "T"⟩ (.ok []) .fail).1 = [fin] ∧
      fin.is_final = true ∧ fin.text_chunk.isSome = true :=
  ⟨⟨some (configErrText "User ID must be provided in context."), none, true⟩,
    rfl, rfl, rfl⟩

/-- C9 amended: every turn yields zero or more events with `text_chunk` set,
no `follow_up_prompts` and `is_final = false`, followed by exactly one
`is_final = true` event and nothing after it; the terminal event carries no
`text_chunk` exactly on turns that complete the streaming phase (valid context
and completed stream) — on failure paths it instead carries the error text —
and it never carries a `text_chunk` and `follow_up_prompts` at once. -/
theorem C9_event_sequence_shape (message : String) (ctx : PyContext)
    (stream : StreamOutcome) (structured : StructuredOutcome) :
    ∃ front fin,
      (get_chat_response message ctx stream structured).1 = front ++ [fin] ∧
      fin.is_final = true ∧
      front.all
        (fun e => !e.is_final && (e.text_chunk.isSome && e.follow_up_prompts.isNone)) = true ∧
      fin.text_chunk.isNone =
        (pyTruthy ctx.userId && pyTruthy ctx.tutorName && stream.isOk) ∧
      (fin.text_chunk = none ∨ fin.follow_up_prompts = none) :=
  get_chat_response_events_shape message ctx stream structured

/-- C10: on the success path the terminal event's `follow_up_prompts` is the
post-processed model output: always null or a non-empty list of non-blank
entries; the empty list and any list with a blank entry normalize to null,
while any other list — including one with entries over the 7-word
heuristic — passes through unchanged. -/
theorem C10_followups_null_or_valid (message : String) (ctx : PyContext)
    (chunks : List String) (out : LLMStructuredOutput) (l : List String)
    (hu : pyTruthy ctx.userId = true) (ht : pyTruthy ctx.tutorName = true) :
    (∃ front, (get_chat_response message ctx (.ok chunks) (.ok out)).1 =
        front ++ [⟨none, normalize_follow_ups out.follow_up_questions, true⟩]) ∧
    isNullOrValidList (normalize_follow_ups out.follow_up_questions) = true ∧
    normalize_follow_ups none = none ∧
    normalize_follow_ups (some []) = none ∧
    (if (!l.isEmpty && l.all (fun q => !q.trim.isEmpty)) = true
      then normalize_follow_ups (some l) = some l
      else normalize_follow_ups (some l) = none) := by
  refine ⟨⟨(streamPhase chunks "").1, by simp [get_chat_response, hu, ht]⟩,
    isNullOrValidList_normalize _, rfl, rfl, ?_⟩
  rw [normalize_follow_ups_some]
  by_cases h : (!l.isEmpty && l.all (fun q => !q.trim.isEmpty)) = true
  · simp [h]
  · simp [h]

/-- C10 witness: a concrete success turn whose model output has one blank
entry among valid ones (normalized to null), checked together with the
pass-through of an over-7-word valid list. -/
theorem C10_followups_null_or_valid_witness :
    pyTruthy (PyContext.mk (some "u") (some "T")).userId = true ∧
    pyTruthy (PyContext.mk (some "u") (some "T")).tutorName = true ∧
    ((∃ front,
      (get_chat_response "hi" ⟨some "u", some "T"⟩ (.ok ["Hi"])
          (.ok ⟨"", some ["ok", " "]⟩)).1 =
        front ++ [⟨none, normalize_follow_ups (some ["ok", " "]), true⟩]) ∧
    isNullOrValidList (normalize_follow_ups (some ["ok", " "])) = true ∧
    normalize_follow_ups none = none ∧
    normalize_follow_ups (some []) = none ∧
    (if (!(["a b c d e f g h i"] : List String).isEmpty &&
          (["a b c d e f g h i"] : List String).all (fun q => !q.trim.isEmpty)) = true
      then normalize_follow_ups (some ["a b c d e f g h i"]) = some ["a b c d e f g h i"]
      else normalize_follow_ups (some ["a b c d e f g h i"]) = none)) :=
  ⟨by decide, by decide,
   C10_followups_null_or_valid "hi" ⟨some "u", some "T"⟩ ["Hi"]
     ⟨"", some ["ok", " "]⟩ ["a b c d e f g h i"] (by decide) (by decide)⟩
